import Mathlib

/-!
Verification of the BluePrism_Dashboard repository (src/bpdashboard.py)
against its natural-language specification.

The dashboard loads one spreadsheet into a flat table, derives label
columns (Date, Quarter, Year_Quarter, Year_Month, Week), applies a chain
of sidebar filters, computes KPI sums, buckets rows by a chosen time
granularity (aggregate_data), and exports the filtered view as CSV/Excel.

The embedding works at two levels:

* A raw, untyped level (RawTable / Cell) for the load-time behaviour of
  load_data (column access, pd.to_numeric coercion): this is where
  missing-column and non-numeric-cell behaviour lives.

* A typed level (Row): the shape of a successfully loaded table, used by
  the filter chain, the KPIs, aggregate_data and the export.  Numeric
  cells are modelled with exact integers (the spec's properties are
  about exact conservation of sums, not float rounding).  The two
  columns that load_data passes through pd.to_numeric(errors="coerce")
  — Cost_Savings_Dollars and Manual_Hours_Saved — may be missing (NaN)
  after coercion and are therefore Option Int; pandas .sum skips NaN,
  modelled as Option.getD 0.  The three execution-count columns are not
  coerced by load_data; the typed level models well-formed numeric data
  for them (Int), and their raw non-numeric behaviour is modelled
  separately at the Cell level.

pandas groupby lists group keys in sorted order; the embedding lists
them in the order List.dedup produces.  No property verified here
depends on the order of the bucket rows.
-/

/-! ## Raw (load-time) level -/

/-- One spreadsheet cell as pandas sees it: a number, a text value, or a
missing value (NaN). -/
inductive Cell where
  | num (n : Int)
  | txt (s : String)
  | na
deriving DecidableEq, Repr

/-- `pd.to_numeric(col, errors="coerce")` on one cell: numbers pass
through, anything non-numeric becomes missing. -/
def to_numeric : Cell → Cell
  | .num n => .num n
  | .txt _ => .na
  | .na => .na

/-- Is the cell a text value? -/
def Cell.isTxt : Cell → Bool
  | .txt _ => true
  | _ => false

/-- The numeric value of a cell, with non-numeric as 0 (what a pandas
NaN-skipping sum contributes for a missing cell). -/
def Cell.numVal : Cell → Int
  | .num n => n
  | _ => 0

/-- pandas `.sum()` over one column: if any cell is a text value the
arithmetic raises (mixed str/int addition), modelled as `none`;
otherwise numbers are added and missing cells are skipped. -/
def colSum (cells : List Cell) : Option Int :=
  if cells.any Cell.isTxt then none
  else some ((cells.map Cell.numVal).sum)

/-- The numeric columns of one raw spreadsheet row, before load_data's
cleaning step (lines 77-79 of bpdashboard.py). -/
structure RawNumRow where
  total_Executions : Cell
  successful_Executions : Cell
  exception_Executions : Cell
  manual_Hours_Saved : Cell
  cost_Savings_Dollars : Cell
deriving DecidableEq, Repr

/-- load_data's cleaning of the numeric columns (lines 78-79): only
Cost_Savings_Dollars and Manual_Hours_Saved go through
pd.to_numeric(errors="coerce"); the three execution-count columns are
left untouched. -/
def cleanNumRow (r : RawNumRow) : RawNumRow :=
  { r with
    cost_Savings_Dollars := to_numeric r.cost_Savings_Dollars
    manual_Hours_Saved := to_numeric r.manual_Hours_Saved }

/-- A raw loaded table for the column-presence behaviour of load_data:
just the set of column names the spreadsheet provides.  (Cell contents
are irrelevant to which columns exist.) -/
structure RawTable where
  cols : List String
deriving DecidableEq, Repr

/-- The columns load_data itself accesses, in source order (lines 71,
74, 78, 79): `df["Run_Year"]`, `df["Run_Month"]`, `df["Month"]`,
`df["Cost_Savings_Dollars"]`, `df["Manual_Hours_Saved"]`.  Accessing a
column that is absent raises a KeyError naming that one column. -/
def loadAccessedCols : List String :=
  ["Run_Year", "Run_Month", "Month", "Cost_Savings_Dollars", "Manual_Hours_Saved"]

/-- Every column the dashboard reads somewhere in the script (the
"fixed expected column set" of the spec): the five of
`loadAccessedCols` plus the columns first touched only while rendering
(Business_Area line 118, Process_Name line 126, Machine_Name line 136,
Total_Executions line 168, Successful_Executions line 192,
Exception_Executions line 220, Business_SubArea line 630, Application
line 503). -/
def requiredColumns : List String :=
  ["Run_Year", "Run_Month", "Month", "Cost_Savings_Dollars", "Manual_Hours_Saved",
   "Business_Area", "Business_SubArea", "Process_Name", "Application", "Machine_Name",
   "Total_Executions", "Successful_Executions", "Exception_Executions"]

/-- load_data's column-access behaviour (lines 62-81).  There is no
presence-check and no exception handler in the source: the function
simply accesses `Run_Year`, `Run_Month`, `Month`,
`Cost_Savings_Dollars` and `Manual_Hours_Saved` in that order, and the
first access to an absent column raises an uncaught KeyError naming
that single column.  On success the table (with its derived columns,
modelled at the typed Row level) is returned.  The derived-column
arithmetic itself cannot fail on well-formed cells and is not repeated
here. -/
def load_data (t : RawTable) : Except String RawTable :=
  if "Run_Year" ∉ t.cols then .error "KeyError: Run_Year"
  else if "Run_Month" ∉ t.cols then .error "KeyError: Run_Month"
  else if "Month" ∉ t.cols then .error "KeyError: Month"
  else if "Cost_Savings_Dollars" ∉ t.cols then .error "KeyError: Cost_Savings_Dollars"
  else if "Manual_Hours_Saved" ∉ t.cols then .error "KeyError: Manual_Hours_Saved"
  else .ok t

/-- Modelled from the spec: the load-time validation the spec describes
("validated by presence-check, reported as a user-visible error listing
missing columns", with the page halting).  No such check exists in
src/bpdashboard.py; this definition follows the spec's words so that it
can be compared with `load_data` above. -/
def load_check_spec (t : RawTable) : Except (List String) RawTable :=
  let missing := requiredColumns.filter (fun c => ¬ c ∈ t.cols)
  if missing = [] then .ok t else .error missing

/-! ## Typed (post-load) level -/

/-- One row of the successfully loaded table.  `month` is the `Month`
string column of the spreadsheet (e.g. "Jan"); `runMonth` is the
numeric `Run_Month` column; nothing in the source forces the two to
agree.  `week` is the `Week` column computed at load time
(`Date.dt.isocalendar().week`, line 75): the ISO week number of the
first day of the run month. -/
structure Row where
  runYear : Int
  runMonth : Nat
  month : String
  week : Nat
  businessArea : String
  businessSubArea : String
  processName : String
  application : String
  machineName : String
  totalExecutions : Int
  successfulExecutions : Int
  exceptionExecutions : Int
  manualHoursSaved : Option Int
  costSavingsDollars : Option Int
deriving DecidableEq, Repr

/-- `Date` (line 71): `pd.to_datetime(Run_Year + "-" + Run_Month + "-01")`,
the first day of the run month; determined by (Run_Year, Run_Month) and
modelled as that pair. -/
def Row.date (r : Row) : Int × Nat := (r.runYear, r.runMonth)

/-- `Quarter` (line 72): `Date.dt.quarter` of the first of month `m` is
`(m - 1) / 3 + 1`. -/
def Row.quarter (r : Row) : Nat := (r.runMonth - 1) / 3 + 1

/-- `Year_Quarter` (line 73): `str(Run_Year) + " Q" + str(Quarter)`. -/
def Row.yearQuarter (r : Row) : String :=
  toString r.runYear ++ " Q" ++ toString r.quarter

/-- `Year_Month` (line 74): `str(Run_Year) + "-" + Month` — built from
the `Month` string column, not from `Run_Month`. -/
def Row.yearMonth (r : Row) : String :=
  toString r.runYear ++ "-" ++ r.month

/-- Sum of an integer column over a table (pandas `.sum()`). -/
def sumInt (f : Row → Int) (df : List Row) : Int := (df.map f).sum

/-- Sum of a NaN-able column over a table: pandas `.sum()` skips NaN,
so a missing cell contributes 0. -/
def sumOpt (f : Row → Option Int) (df : List Row) : Int :=
  (df.map (fun r => (f r).getD 0)).sum

/-! ## Filter chain (lines 142-158) -/

/-- The sidebar selection: year multiselect, month multiselect, and the
three single-select boxes whose "All" choice disables them. -/
structure Sel where
  years : List Int
  months : List String
  businessArea : String
  process : String
  machine : String
deriving DecidableEq, Repr

/-- The five filter steps, in the order the code applies them. -/
inductive StepId where
  | years
  | months
  | area
  | process
  | machine
deriving DecidableEq, Repr

/-- One step of the filter chain, exactly as coded: each step is
guarded (`if selected_years:` — a Python list is truthy iff non-empty —
and `!= "All"` for the select boxes) and otherwise filters by `isin`
membership or exact equality. -/
def stepFilter (sel : Sel) : StepId → List Row → List Row
  | .years, d =>
      if sel.years ≠ [] then d.filter (fun r => sel.years.contains r.runYear) else d
  | .months, d =>
      if sel.months ≠ [] then d.filter (fun r => sel.months.contains r.month) else d
  | .area, d =>
      if sel.businessArea ≠ "All" then
        d.filter (fun r => r.businessArea == sel.businessArea)
      else d
  | .process, d =>
      if sel.process ≠ "All" then d.filter (fun r => r.processName == sel.process) else d
  | .machine, d =>
      if sel.machine ≠ "All" then d.filter (fun r => r.machineName == sel.machine) else d

/-- The row predicate each step amounts to (a skipped step keeps every
row). -/
def stepPred (sel : Sel) : StepId → Row → Bool
  | .years, r => if sel.years ≠ [] then sel.years.contains r.runYear else true
  | .months, r => if sel.months ≠ [] then sel.months.contains r.month else true
  | .area, r => if sel.businessArea ≠ "All" then r.businessArea == sel.businessArea else true
  | .process, r => if sel.process ≠ "All" then r.processName == sel.process else true
  | .machine, r => if sel.machine ≠ "All" then r.machineName == sel.machine else true

/-- Apply a sequence of filter steps left to right. -/
def applySteps (order : List StepId) (sel : Sel) (df : List Row) : List Row :=
  order.foldl (fun d s => stepFilter sel s d) df

/-- The order the code uses: years, months, business area, process,
machine (lines 145-158). -/
def codeOrder : List StepId := [.years, .months, .area, .process, .machine]

/-- `filtered_df` (lines 143-158): the working subset every chart
uses. -/
def filtered_df (sel : Sel) (df : List Row) : List Row :=
  applySteps codeOrder sel df

/-! ## KPI row (lines 167-205) -/

/-- `total_executions` (line 168): `filtered_df["Total_Executions"].sum()`. -/
def total_executions (df : List Row) : Int := sumInt Row.totalExecutions df

/-- `total_hours_saved` (line 176). -/
def total_hours_saved (df : List Row) : Int := sumOpt Row.manualHoursSaved df

/-- `total_cost_savings` (line 184). -/
def total_cost_savings (df : List Row) : Int := sumOpt Row.costSavingsDollars df

/-- `success_rate` (line 192): guarded ratio — 0 when there are no
executions, so no division by zero is performed. -/
def success_rate (df : List Row) : ℚ :=
  if total_executions df > 0 then
    (sumInt Row.successfulExecutions df : ℚ) / (total_executions df : ℚ) * 100
  else 0

/-- `unique_processes` (line 200): `filtered_df["Process_Name"].nunique()`. -/
def unique_processes (df : List Row) : Nat :=
  ((df.map Row.processName).dedup).length

/-! ## Time bucketing: aggregate_data (lines 210-241) -/

/-- The value in the `Period` column of aggregate_data's output: a
Timestamp for Daily, a string label for Weekly/Monthly/Quarterly, the
integer year for Yearly. -/
inductive PeriodLabel where
  | date (y : Int) (m : Nat)
  | str (s : String)
  | int (y : Int)
deriving DecidableEq, Repr

/-- One row of aggregate_data's output.  The Weekly branch's dataframe
keeps its Run_Year and Week key columns next to Period (the other
branches have no such columns), modelled by the two optional fields. -/
structure AggRow where
  runYearCol : Option Int
  weekCol : Option Nat
  period : PeriodLabel
  totalExecutions : Int
  manualHoursSaved : Int
  costSavingsDollars : Int
  successfulExecutions : Int
  exceptionExecutions : Int
deriving DecidableEq, Repr

/-- The grouping label of the Daily branch: the `Date` column. -/
def dailyLabel (r : Row) : PeriodLabel := .date r.runYear r.runMonth

/-- The grouping label of the Monthly branch: the `Year_Month` column. -/
def monthlyLabel (r : Row) : PeriodLabel := .str r.yearMonth

/-- The grouping label of the Quarterly branch: the `Year_Quarter`
column. -/
def quarterlyLabel (r : Row) : PeriodLabel := .str r.yearQuarter

/-- The grouping label of the Yearly branch: the `Run_Year` column. -/
def yearlyLabel (r : Row) : PeriodLabel := .int r.runYear

/-- The aggregate row for one group key: the five metric columns are
summed over the rows of the group (`.agg({... : "sum"})`, lines
231-237), and the key becomes the `Period` column after the rename on
line 239. -/
def aggRowOf (key : Row → PeriodLabel) (df : List Row) (k : PeriodLabel) : AggRow :=
  let grp := df.filter (fun r => decide (key r = k))
  { runYearCol := none
    weekCol := none
    period := k
    totalExecutions := sumInt Row.totalExecutions grp
    manualHoursSaved := sumOpt Row.manualHoursSaved grp
    costSavingsDollars := sumOpt Row.costSavingsDollars grp
    successfulExecutions := sumInt Row.successfulExecutions grp
    exceptionExecutions := sumInt Row.exceptionExecutions grp }

/-- `df.groupby(group_by).agg({...: "sum"}).reset_index()` with the
rename to `Period`: one output row per distinct label. -/
def aggByLabel (key : Row → PeriodLabel) (df : List Row) : List AggRow :=
  ((df.map key).dedup).map (aggRowOf key df)

/-- The Weekly grouping key: the pair (Run_Year, Week) (line 215). -/
def weeklyKey (r : Row) : Int × Nat := (r.runYear, r.week)

/-- One output row of the Weekly branch: metrics summed over the
(Run_Year, Week) group, the key columns restored by `reset_index()`,
and the label `Period = "W" + Week + " " + Run_Year` (line 222). -/
def weeklyRowOf (df : List Row) (k : Int × Nat) : AggRow :=
  let grp := df.filter (fun r => decide (weeklyKey r = k))
  { runYearCol := some k.1
    weekCol := some k.2
    period := .str ("W" ++ toString k.2 ++ " " ++ toString k.1)
    totalExecutions := sumInt Row.totalExecutions grp
    manualHoursSaved := sumOpt Row.manualHoursSaved grp
    costSavingsDollars := sumOpt Row.costSavingsDollars grp
    successfulExecutions := sumInt Row.successfulExecutions grp
    exceptionExecutions := sumInt Row.exceptionExecutions grp }

/-- `aggregate_data` (lines 210-241), following the source's
if/elif/else on the period string (any other string falls into the
Yearly branch, as in the code's final `else`). -/
def aggregate_data (df : List Row) (period : String) : List AggRow :=
  if period = "Daily" then aggByLabel dailyLabel df
  else if period = "Weekly" then
    ((df.map weeklyKey).dedup).map (weeklyRowOf df)
  else if period = "Monthly" then aggByLabel monthlyLabel df
  else if period = "Quarterly" then aggByLabel quarterlyLabel df
  else aggByLabel yearlyLabel df

/-! ## Export (lines 859-866) -/

/-- The serialized fields of one row, one string per column of the
filtered frame.  (The spreadsheet's own column order is not observable
from the source; only the one-record-per-row structure matters to the
verified property.) -/
def rowFields (r : Row) : List String :=
  [toString r.runYear, toString r.runMonth, r.month, toString r.week,
   r.businessArea, r.businessSubArea, r.processName, r.application, r.machineName,
   toString r.totalExecutions, toString r.successfulExecutions,
   toString r.exceptionExecutions,
   toString r.manualHoursSaved, toString r.costSavingsDollars]

/-- The header record of the export. -/
def headerFields : List String :=
  ["Run_Year", "Run_Month", "Month", "Week",
   "Business_Area", "Business_SubArea", "Process_Name", "Application", "Machine_Name",
   "Total_Executions", "Successful_Executions", "Exception_Executions",
   "Manual_Hours_Saved", "Cost_Savings_Dollars"]

/-- `to_csv(index=False)` (line 859): one header record followed by one
record per data row. -/
def toCsvRecords (df : List Row) : List String :=
  (String.intercalate "," headerFields) ::
    df.map (fun r => String.intercalate "," (rowFields r))

/-- `csv_data` (line 859): the records joined into one byte string. -/
def csv_data (df : List Row) : String :=
  String.intercalate "\x0a" (toCsvRecords df)

/-- The Excel export's single sheet (lines 862-866):
`to_excel(index=False, sheet_name="RPA Metrics")` writes a header row
and one sheet row per data row. -/
structure ExcelSheet where
  sheetName : String
  header : List String
  dataRows : List (List String)
deriving DecidableEq, Repr

/-- `excel_data` (lines 862-866), as the sheet it contains. -/
def excel_data (df : List Row) : ExcelSheet :=
  { sheetName := "RPA Metrics"
    header := headerFields
    dataRows := df.map rowFields }

/-! ## Helper lemmas -/

/-- Splitting a sum over a list by a predicate. -/
theorem sum_map_filter_split {α : Type} (m : α → Int) (p : α → Bool) (l : List α) :
    ((l.filter p).map m).sum + ((l.filter (fun a => ! p a)).map m).sum
      = (l.map m).sum := by
  induction l with
  | nil => simp
  | cons a t ih =>
    by_cases h : p a = true
    · simp [List.filter_cons, h, add_assoc, ih]
    · have h2 : p a = false := by
        cases hpa : p a
        · rfl
        · exact absurd hpa h
      simp only [List.filter_cons, h2, Bool.not_false, if_true, if_false,
        Bool.false_eq_true, List.map_cons, List.sum_cons]
      omega

/-- Summing group sums over a duplicate-free covering key list recovers
the sum over the whole list. -/
theorem sum_over_keys {α κ : Type} [DecidableEq κ] (key : α → κ) (m : α → Int)
    (keys : List κ) (l : List α) (hnd : keys.Nodup)
    (hcov : ∀ a ∈ l, key a ∈ keys) :
    (keys.map (fun k => ((l.filter (fun a => decide (key a = k))).map m).sum)).sum
      = (l.map m).sum := by
  induction keys generalizing l with
  | nil =>
    cases l with
    | nil => simp
    | cons a t => exact absurd (hcov a (by simp)) (by simp)
  | cons k ks ih =>
    have hnd2 : ks.Nodup := hnd.of_cons
    have hk : k ∉ ks := by
      have := List.nodup_cons.mp hnd
      exact this.1
    set l₂ := l.filter (fun a => ! decide (key a = k)) with hl₂
    have hcov₂ : ∀ a ∈ l₂, key a ∈ ks := by
      intro a ha
      have hmem := List.mem_of_mem_filter ha
      have hne : ¬ (key a = k) := by
        have := List.of_mem_filter ha
        simpa using this
      have := hcov a hmem
      simp only [List.mem_cons] at this
      exact this.resolve_left hne
    have hsame : ∀ k2 ∈ ks,
        (l.filter (fun a => decide (key a = k2)))
          = (l₂.filter (fun a => decide (key a = k2))) := by
      intro k2 hk2
      rw [hl₂, List.filter_filter]
      apply List.filter_congr
      intro a _
      have hne : k2 ≠ k := fun h => hk (h ▸ hk2)
      by_cases h : key a = k2
      · simp [h, hne]
      · simp [h]
    have hmapeq :
        (ks.map (fun k2 => ((l.filter (fun a => decide (key a = k2))).map m).sum))
          = (ks.map (fun k2 => ((l₂.filter (fun a => decide (key a = k2))).map m).sum)) := by
      apply List.map_congr_left
      intro k2 hk2
      rw [hsame k2 hk2]
    simp only [List.map_cons, List.sum_cons]
    rw [hmapeq, ih l₂ hnd2 hcov₂, hl₂]
    exact sum_map_filter_split m (fun a => decide (key a = k)) l

/-- Generic conservation for a dedup-keys group-by: mapping any metric
extractor over the bucket rows and summing equals summing the
underlying row metric, provided the extractor reads off the group sum. -/
theorem sum_grouped {κ : Type} [DecidableEq κ] (key : Row → κ) (df : List Row)
    (mk : κ → AggRow) (g : AggRow → Int) (m : Row → Int)
    (h : ∀ k, g (mk k) = ((df.filter (fun r => decide (key r = k))).map m).sum) :
    ((((df.map key).dedup).map mk).map g).sum = (df.map m).sum := by
  rw [List.map_map]
  have hmap : ((df.map key).dedup).map (g ∘ mk)
      = ((df.map key).dedup).map
          (fun k => ((df.filter (fun r => decide (key r = k))).map m).sum) :=
    List.map_congr_left (fun k _ => h k)
  rw [hmap]
  exact sum_over_keys key m ((df.map key).dedup) df (List.nodup_dedup _)
    (fun r hr => List.mem_dedup.mpr (List.mem_map_of_mem key hr))

/-- Each filter step is the filter by its row predicate. -/
theorem stepFilter_eq_filter (sel : Sel) (s : StepId) (df : List Row) :
    stepFilter sel s df = df.filter (stepPred sel s) := by
  have hp : ∀ s2, stepPred sel s2 = fun r => stepPred sel s2 r := fun _ => rfl
  cases s
  case years =>
    rw [hp]
    by_cases h : sel.years = [] <;> simp [stepFilter, stepPred, h]
  case months =>
    rw [hp]
    by_cases h : sel.months = [] <;> simp [stepFilter, stepPred, h]
  case area =>
    rw [hp]
    by_cases h : sel.businessArea = "All" <;> simp [stepFilter, stepPred, h]
  case process =>
    rw [hp]
    by_cases h : sel.process = "All" <;> simp [stepFilter, stepPred, h]
  case machine =>
    rw [hp]
    by_cases h : sel.machine = "All" <;> simp [stepFilter, stepPred, h]

/-- Applying a sequence of steps filters by the conjunction of their
predicates. -/
theorem applySteps_eq_filter (order : List StepId) (sel : Sel) (df : List Row) :
    applySteps order sel df = df.filter (fun r => order.all (fun s => stepPred sel s r)) := by
  induction order generalizing df with
  | nil => simp [applySteps]
  | cons s t ih =>
    have h1 : applySteps (s :: t) sel df = applySteps t sel (stepFilter sel s df) := rfl
    rw [h1, ih, stepFilter_eq_filter, List.filter_filter]
    apply List.filter_congr
    intro r _
    simp [Bool.and_comm]

/-- Counting, in a deduplicated list, the elements a predicate selects,
when the predicate holds exactly at one value: 1 if that value occurs
in the original list, otherwise 0. -/
theorem countP_dedup_eq {κ : Type} [DecidableEq κ] (l : List κ) (p : κ → Bool) (a : κ)
    (hp : ∀ k, p k = true ↔ k = a) :
    l.dedup.countP p = if a ∈ l then 1 else 0 := by
  induction l with
  | nil => simp
  | cons b t ih =>
    by_cases hb : b ∈ t
    · rw [List.dedup_cons_of_mem hb, ih]
      by_cases hab : a = b
      · subst hab
        simp [hb]
      · simp [List.mem_cons, hab]
    · rw [List.dedup_cons_of_not_mem hb, List.countP_cons, ih]
      by_cases hab : a = b
      · subst hab
        have hpb : p a = true := (hp a).mpr rfl
        simp [hpb, hb]
      · have hpb : p b = false := by
          cases hc : p b
          · rfl
          · exact absurd ((hp b).mp hc) (fun h => hab h.symm)
        simp [hpb, List.mem_cons, hab]

/-- `List.all` is invariant under permutation of the list. -/
theorem perm_all {α : Type} {l₁ l₂ : List α} (h : l₁.Perm l₂) (f : α → Bool) :
    l₁.all f = l₂.all f := by
  have hiff : (l₁.all f = true) ↔ (l₂.all f = true) := by
    simp only [List.all_eq_true]
    exact ⟨fun ha x hx => ha x (h.mem_iff.mpr hx),
           fun ha x hx => ha x (h.mem_iff.mp hx)⟩
  cases ha : l₁.all f
  · cases hb : l₂.all f
    · rfl
    · exact absurd (hiff.mpr hb) (by simp [ha])
  · exact (hiff.mp ha).symm

/-! ## Concrete sample data for witnesses -/

/-- A sample loaded row (January 2023; the first of January 2023 falls
in ISO week 52 of 2022, but the Week column only matters as a grouping
value here). -/
def rowA : Row :=
  { runYear := 2023, runMonth := 1, month := "Jan", week := 52
    businessArea := "Finance", businessSubArea := "AP"
    processName := "InvoiceBot", application := "SAP", machineName := "VM01"
    totalExecutions := 10, successfulExecutions := 9, exceptionExecutions := 1
    manualHoursSaved := some 5, costSavingsDollars := some 100 }

/-- A second sample row (February 2023). -/
def rowB : Row :=
  { runYear := 2023, runMonth := 2, month := "Feb", week := 5
    businessArea := "HR", businessSubArea := "Payroll"
    processName := "PayBot", application := "Workday", machineName := "VM02"
    totalExecutions := 20, successfulExecutions := 18, exceptionExecutions := 2
    manualHoursSaved := some 7, costSavingsDollars := none }

/-- A third sample row (March 2024). -/
def rowC : Row :=
  { runYear := 2024, runMonth := 3, month := "Mar", week := 9
    businessArea := "Finance", businessSubArea := "AR"
    processName := "InvoiceBot", application := "SAP", machineName := "VM01"
    totalExecutions := 5, successfulExecutions := 5, exceptionExecutions := 0
    manualHoursSaved := none, costSavingsDollars := some 40 }

/-- A small sample table. -/
def dfEx : List Row := [rowA, rowB, rowC]

/-- A sample selection keeping only year 2023. -/
def selEx : Sel :=
  { years := [2023], months := ["Jan", "Feb"]
    businessArea := "All", process := "All", machine := "All" }

/-- A selection matching nothing (year 1999 never occurs in dfEx). -/
def selNone : Sel :=
  { years := [1999], months := [], businessArea := "All", process := "All", machine := "All" }

/-- The selection with empty multiselects and every select box on
"All". -/
def emptySel : Sel :=
  { years := [], months := [], businessArea := "All", process := "All", machine := "All" }

/-! ## C1: aggregation conserves the five column totals -/

/-- C1: For every granularity string and every input table, each of the
five summed metric columns of aggregate_data's output has the same
total as the corresponding column of the input (time-bucket sums equal
the sum of the unbucketed rows).  Stated for an arbitrary period
string, which covers the five granularity choices Daily, Weekly,
Monthly, Quarterly and Yearly. -/
theorem aggregate_data_conserves_totals (period : String) (df : List Row) :
    (((aggregate_data df period).map AggRow.totalExecutions).sum
        = sumInt Row.totalExecutions df)
    ∧ (((aggregate_data df period).map AggRow.manualHoursSaved).sum
        = sumOpt Row.manualHoursSaved df)
    ∧ (((aggregate_data df period).map AggRow.costSavingsDollars).sum
        = sumOpt Row.costSavingsDollars df)
    ∧ (((aggregate_data df period).map AggRow.successfulExecutions).sum
        = sumInt Row.successfulExecutions df)
    ∧ (((aggregate_data df period).map AggRow.exceptionExecutions).sum
        = sumInt Row.exceptionExecutions df) := by
  unfold aggregate_data
  split
  · exact ⟨sum_grouped dailyLabel df (aggRowOf dailyLabel df) _ _ (fun k => rfl),
      sum_grouped dailyLabel df (aggRowOf dailyLabel df) _ _ (fun k => rfl),
      sum_grouped dailyLabel df (aggRowOf dailyLabel df) _ _ (fun k => rfl),
      sum_grouped dailyLabel df (aggRowOf dailyLabel df) _ _ (fun k => rfl),
      sum_grouped dailyLabel df (aggRowOf dailyLabel df) _ _ (fun k => rfl)⟩
  split
  · exact ⟨sum_grouped weeklyKey df (weeklyRowOf df) _ _ (fun k => rfl),
      sum_grouped weeklyKey df (weeklyRowOf df) _ _ (fun k => rfl),
      sum_grouped weeklyKey df (weeklyRowOf df) _ _ (fun k => rfl),
      sum_grouped weeklyKey df (weeklyRowOf df) _ _ (fun k => rfl),
      sum_grouped weeklyKey df (weeklyRowOf df) _ _ (fun k => rfl)⟩
  split
  · exact ⟨sum_grouped monthlyLabel df (aggRowOf monthlyLabel df) _ _ (fun k => rfl),
      sum_grouped monthlyLabel df (aggRowOf monthlyLabel df) _ _ (fun k => rfl),
      sum_grouped monthlyLabel df (aggRowOf monthlyLabel df) _ _ (fun k => rfl),
      sum_grouped monthlyLabel df (aggRowOf monthlyLabel df) _ _ (fun k => rfl),
      sum_grouped monthlyLabel df (aggRowOf monthlyLabel df) _ _ (fun k => rfl)⟩
  split
  · exact ⟨sum_grouped quarterlyLabel df (aggRowOf quarterlyLabel df) _ _ (fun k => rfl),
      sum_grouped quarterlyLabel df (aggRowOf quarterlyLabel df) _ _ (fun k => rfl),
      sum_grouped quarterlyLabel df (aggRowOf quarterlyLabel df) _ _ (fun k => rfl),
      sum_grouped quarterlyLabel df (aggRowOf quarterlyLabel df) _ _ (fun k => rfl),
      sum_grouped quarterlyLabel df (aggRowOf quarterlyLabel df) _ _ (fun k => rfl)⟩
  · exact ⟨sum_grouped yearlyLabel df (aggRowOf yearlyLabel df) _ _ (fun k => rfl),
      sum_grouped yearlyLabel df (aggRowOf yearlyLabel df) _ _ (fun k => rfl),
      sum_grouped yearlyLabel df (aggRowOf yearlyLabel df) _ _ (fun k => rfl),
      sum_grouped yearlyLabel df (aggRowOf yearlyLabel df) _ _ (fun k => rfl),
      sum_grouped yearlyLabel df (aggRowOf yearlyLabel df) _ _ (fun k => rfl)⟩

/-! ## C2: weekly bucketing by (Run_Year, Week) and its label -/

/-- C2: The Weekly branch produces exactly one output row per distinct
(Run_Year, ISO-week) pair present in the input — counted via the key
columns the branch keeps — and each output row's Period label is
"W<week> <year>"; every other granularity is the group-by on its single
precomputed label column (Date, Year_Month, Year_Quarter, Run_Year). -/
theorem weekly_buckets_unique_and_labelled (df : List Row) :
    (∀ (y : Int) (w : Nat),
      (aggregate_data df "Weekly").countP
          (fun a => decide (a.runYearCol = some y ∧ a.weekCol = some w))
        = if ∃ r ∈ df, r.runYear = y ∧ r.week = w then 1 else 0)
    ∧ (∀ a ∈ aggregate_data df "Weekly", ∃ (y : Int) (w : Nat),
        a.runYearCol = some y ∧ a.weekCol = some w
        ∧ a.period = PeriodLabel.str ("W" ++ toString w ++ " " ++ toString y))
    ∧ aggregate_data df "Daily" = aggByLabel dailyLabel df
    ∧ aggregate_data df "Monthly" = aggByLabel monthlyLabel df
    ∧ aggregate_data df "Quarterly" = aggByLabel quarterlyLabel df
    ∧ aggregate_data df "Yearly" = aggByLabel yearlyLabel df := by
  have h1 : aggregate_data df "Weekly"
      = ((df.map weeklyKey).dedup).map (weeklyRowOf df) := rfl
  refine ⟨?_, ?_, rfl, rfl, rfl, rfl⟩
  · intro y w
    rw [h1, List.countP_map]
    have h3 := countP_dedup_eq (df.map weeklyKey)
      ((fun a => decide (a.runYearCol = some y ∧ a.weekCol = some w))
        ∘ (weeklyRowOf df)) (y, w)
      (by
        intro k
        rcases k with ⟨ky, kw⟩
        simp [weeklyRowOf, Function.comp, Prod.ext_iff])
    have h4 : ((y, w) ∈ df.map weeklyKey) ↔ (∃ r ∈ df, r.runYear = y ∧ r.week = w) := by
      simp [List.mem_map, weeklyKey, Prod.ext_iff, eq_comm]
    rw [h3]
    simp only [h4]
  · intro a ha
    rw [h1] at ha
    obtain ⟨k, _, hk⟩ := List.mem_map.mp ha
    exact ⟨k.1, k.2, by rw [← hk]; rfl, by rw [← hk]; rfl, by rw [← hk]; rfl⟩

/-- Witness for C2 at the sample table: the pair (2023, 52) occurs in
dfEx and is counted exactly once among the weekly bucket rows, and the
first weekly bucket row carries a well-formed label. -/
theorem weekly_buckets_unique_and_labelled_witness :
    ((aggregate_data dfEx "Weekly").countP
        (fun a => decide (a.runYearCol = some 2023 ∧ a.weekCol = some 52))
      = if ∃ r ∈ dfEx, r.runYear = 2023 ∧ r.week = 52 then 1 else 0)
    ∧ (∃ (y : Int) (w : Nat),
        (weeklyRowOf dfEx (2023, 52)).runYearCol = some y
        ∧ (weeklyRowOf dfEx (2023, 52)).weekCol = some w
        ∧ (weeklyRowOf dfEx (2023, 52)).period
            = PeriodLabel.str ("W" ++ toString w ++ " " ++ toString y)) :=
  ⟨(weekly_buckets_unique_and_labelled dfEx).1 2023 52,
   (weekly_buckets_unique_and_labelled dfEx).2.1 (weeklyRowOf dfEx (2023, 52))
     (by decide)⟩

/-! ## C3: the filter chain is order-independent -/

/-- C3: For every table and every fixed selection, applying the five
filter steps in any permutation of their order yields the same result
as the order the code uses (years, months, business area, process,
machine). -/
theorem filter_chain_order_independent (sel : Sel) (df : List Row)
    (order : List StepId) (h : order.Perm codeOrder) :
    applySteps order sel df = filtered_df sel df := by
  rw [filtered_df, applySteps_eq_filter, applySteps_eq_filter]
  apply List.filter_congr
  intro r _
  exact perm_all h (fun s => stepPred sel s r)

/-- Witness for C3: the fully reversed order on the sample table and
selection. -/
theorem filter_chain_order_independent_witness :
    ([StepId.machine, StepId.process, StepId.area, StepId.months, StepId.years]).Perm
        codeOrder
    ∧ applySteps [StepId.machine, StepId.process, StepId.area, StepId.months, StepId.years]
        selEx dfEx = filtered_df selEx dfEx :=
  ⟨by decide,
   filter_chain_order_independent selEx dfEx
     [StepId.machine, StepId.process, StepId.area, StepId.months, StepId.years]
     (by decide)⟩

/-! ## C4: the filter chain is idempotent -/

/-- C4: Applying the full filter chain to its own output (with the same
selection) is a no-op. -/
theorem filter_chain_idempotent (sel : Sel) (df : List Row) :
    filtered_df sel (filtered_df sel df) = filtered_df sel df := by
  rw [filtered_df, filtered_df, applySteps_eq_filter, applySteps_eq_filter,
    List.filter_filter]
  apply List.filter_congr
  intro r _
  exact Bool.and_self _

/-! ## C5: empty filter result gives zero-valued KPIs -/

/-- C5: When the filter chain produces an empty table, every KPI is 0
and the success rate falls into the explicit `> 0` guard's else branch
(no division is performed). -/
theorem empty_filter_zero_kpis (sel : Sel) (df : List Row)
    (h : filtered_df sel df = []) :
    total_executions (filtered_df sel df) = 0
    ∧ total_hours_saved (filtered_df sel df) = 0
    ∧ total_cost_savings (filtered_df sel df) = 0
    ∧ unique_processes (filtered_df sel df) = 0
    ∧ success_rate (filtered_df sel df) = 0
    ∧ ¬ total_executions (filtered_df sel df) > 0 := by
  rw [h]
  refine ⟨rfl, rfl, rfl, rfl, ?_, by decide⟩
  simp [success_rate, total_executions, sumInt]

/-- Witness for C5: a selection (year 1999) that matches nothing in the
sample table. -/
theorem empty_filter_zero_kpis_witness :
    filtered_df selNone dfEx = []
    ∧ (total_executions (filtered_df selNone dfEx) = 0
    ∧ total_hours_saved (filtered_df selNone dfEx) = 0
    ∧ total_cost_savings (filtered_df selNone dfEx) = 0
    ∧ unique_processes (filtered_df selNone dfEx) = 0
    ∧ success_rate (filtered_df selNone dfEx) = 0
    ∧ ¬ total_executions (filtered_df selNone dfEx) > 0) :=
  ⟨by decide, empty_filter_zero_kpis selNone dfEx (by decide)⟩

/-! ## C10: empty multiselects skip their predicate -/

/-- C10: An empty year or month selection does not filter by membership
in the empty set: the step is skipped entirely (identity), so with both
multiselects empty and the select boxes on "All" the whole chain keeps
every row, and the filtered table is non-empty whenever the input is. -/
theorem empty_selection_skips_predicate :
    (∀ (sel : Sel) (df : List Row), sel.years = [] → stepFilter sel .years df = df)
    ∧ (∀ (sel : Sel) (df : List Row), sel.months = [] → stepFilter sel .months df = df)
    ∧ (∀ df : List Row, filtered_df emptySel df = df)
    ∧ (∃ df : List Row, filtered_df emptySel df ≠ []) := by
  refine ⟨?_, ?_, ?_, ?_⟩
  · intro sel df h
    simp [stepFilter, h]
  · intro sel df h
    simp [stepFilter, h]
  · intro df
    rw [filtered_df, applySteps_eq_filter]
    simp [codeOrder, stepPred, emptySel]
  · exact ⟨[rowA], by decide⟩

/-- Witness for C10 at the sample data. -/
theorem empty_selection_skips_predicate_witness :
    stepFilter emptySel StepId.years dfEx = dfEx
    ∧ stepFilter emptySel StepId.months dfEx = dfEx
    ∧ filtered_df emptySel dfEx = dfEx :=
  ⟨empty_selection_skips_predicate.1 emptySel dfEx rfl,
   empty_selection_skips_predicate.2.1 emptySel dfEx rfl,
   empty_selection_skips_predicate.2.2.1 dfEx⟩

/-! ## C8: export preserves the filtered row count -/

/-- C8: The export serializes the filtered view row for row: the CSV
consists of the header record plus exactly one record per filtered row,
and the Excel sheet holds exactly one data row per filtered row. -/
theorem export_row_count (sel : Sel) (df : List Row) :
    (toCsvRecords (filtered_df sel df)).length = (filtered_df sel df).length + 1
    ∧ (excel_data (filtered_df sel df)).dataRows.length = (filtered_df sel df).length := by
  constructor
  · simp [toCsvRecords]
  · simp [excel_data]

/-! ## C6: load-time validation -/

/-- A spreadsheet providing every required column except Business_Area. -/
def tableNoBA : RawTable :=
  { cols := ["Run_Year", "Run_Month", "Month", "Cost_Savings_Dollars", "Manual_Hours_Saved",
             "Business_SubArea", "Process_Name", "Application", "Machine_Name",
             "Total_Executions", "Successful_Executions", "Exception_Executions"] }

/-- A spreadsheet with no columns at all. -/
def tableEmpty : RawTable := { cols := [] }

/-- Counterexample to C6: on a table missing the required column
Business_Area, load_data succeeds — nothing is caught at load time and
no message lists the missing column (the presence-check the spec
describes, load_check_spec, would have reported it); and on a table
missing several columns, the failure load_data does produce is a
KeyError naming only the first accessed column, not a list of the
missing ones. -/
theorem load_missing_column_not_caught :
    load_data tableNoBA = Except.ok tableNoBA
    ∧ "Business_Area" ∈ requiredColumns
    ∧ "Business_Area" ∉ tableNoBA.cols
    ∧ load_check_spec tableNoBA = Except.error ["Business_Area"]
    ∧ load_data tableEmpty = Except.error "KeyError: Run_Year"
    ∧ "Month" ∉ tableEmpty.cols := by
  refine ⟨rfl, by decide, by decide, rfl, rfl, by decide⟩

/-- C6 amended: load_data performs no presence-check.  It fails exactly
when one of the five columns it itself accesses (Run_Year, Run_Month,
Month, Cost_Savings_Dollars, Manual_Hours_Saved) is absent, with an
uncaught KeyError naming only the first such column in access order —
the framework then halts the page with its exception screen, not with a
message listing the missing columns — and it succeeds on any table
providing those five columns, even when other required columns are
missing (those fail later, mid-render). -/
theorem load_data_keyerror_first_accessed (t : RawTable) :
    load_data t
      = match loadAccessedCols.find? (fun c => ! t.cols.contains c) with
        | some c => Except.error ("KeyError: " ++ c)
        | none => Except.ok t := by
  by_cases h1 : "Run_Year" ∈ t.cols <;>
    by_cases h2 : "Run_Month" ∈ t.cols <;>
      by_cases h3 : "Month" ∈ t.cols <;>
        by_cases h4 : "Cost_Savings_Dollars" ∈ t.cols <;>
          by_cases h5 : "Manual_Hours_Saved" ∈ t.cols <;>
            simp [load_data, loadAccessedCols, h1, h2, h3, h4, h5]

/-- Witness for the amended C6 at a concrete table: with Run_Year and
Run_Month present but Month absent, the first accessed missing column
is Month and load_data raises exactly that KeyError. -/
theorem load_data_keyerror_first_accessed_witness :
    load_data { cols := ["Run_Year", "Run_Month"] }
      = match loadAccessedCols.find?
            (fun c => ! (RawTable.cols { cols := ["Run_Year", "Run_Month"] }).contains c) with
        | some c => Except.error ("KeyError: " ++ c)
        | none => Except.ok { cols := ["Run_Year", "Run_Month"] } :=
  load_data_keyerror_first_accessed { cols := ["Run_Year", "Run_Month"] }

/-! ## C7: numeric coercion at load time -/

/-- A raw row with a non-numeric Total_Executions cell and a
non-numeric Manual_Hours_Saved cell. -/
def rawRowBad : RawNumRow :=
  { total_Executions := .txt "ten", successful_Executions := .num 9
    exception_Executions := .num 1
    manual_Hours_Saved := .txt "n/a", cost_Savings_Dollars := .na }

/-- Counterexample to C7: load_data's cleaning leaves the text cell in
Total_Executions untouched (only the two money/hours columns are
coerced), so summing the Total_Executions column raises (none) instead
of treating the cell as zero/missing — while the coerced
Manual_Hours_Saved column does sum to 0. -/
theorem non_numeric_execution_cell_raises :
    (cleanNumRow rawRowBad).total_Executions = Cell.txt "ten"
    ∧ (cleanNumRow rawRowBad).manual_Hours_Saved = Cell.na
    ∧ colSum ([rawRowBad].map (fun r => (cleanNumRow r).total_Executions)) = none
    ∧ colSum ([rawRowBad].map (fun r => (cleanNumRow r).manual_Hours_Saved)) = some 0 := by
  refine ⟨rfl, rfl, rfl, rfl⟩

/-- C7 amended: the load-time coercion applies only to
Cost_Savings_Dollars and Manual_Hours_Saved; sums over those two
columns never raise, and every non-numeric cell in them contributes
zero.  (The three execution-count columns are not coerced, and a text
cell there makes the downstream sum raise, as the counterexample
shows.) -/
theorem coerced_columns_never_raise (rows : List RawNumRow) :
    colSum (rows.map (fun r => (cleanNumRow r).manual_Hours_Saved))
      = some ((rows.map (fun r => r.manual_Hours_Saved.numVal)).sum)
    ∧ colSum (rows.map (fun r => (cleanNumRow r).cost_Savings_Dollars))
      = some ((rows.map (fun r => r.cost_Savings_Dollars.numVal)).sum) := by
  have htxt : ∀ c : Cell, (to_numeric c).isTxt = false := by
    intro c; cases c <;> rfl
  have hval : ∀ c : Cell, (to_numeric c).numVal = c.numVal := by
    intro c; cases c <;> rfl
  constructor
  · simp only [colSum]
    rw [if_neg]
    · congr 1
      rw [List.map_map]
      refine congrArg List.sum (List.map_congr_left ?_)
      intro r _
      exact hval _
    · simp [List.any_map, Function.comp, htxt, cleanNumRow]
  · simp only [colSum]
    rw [if_neg]
    · congr 1
      rw [List.map_map]
      refine congrArg List.sum (List.map_congr_left ?_)
      intro r _
      exact hval _
    · simp [List.any_map, Function.comp, htxt, cleanNumRow]

/-! ## C9: Daily versus Monthly bucketing -/

/-- A row whose Month string ("Feb") disagrees with its numeric
Run_Month (1): nothing in load_data prevents this, since Month is its
own spreadsheet column. -/
def rowD : Row :=
  { runYear := 2023, runMonth := 1, month := "Feb", week := 52
    businessArea := "Finance", businessSubArea := "AP"
    processName := "InvoiceBot", application := "SAP", machineName := "VM01"
    totalExecutions := 4, successfulExecutions := 4, exceptionExecutions := 0
    manualHoursSaved := some 2, costSavingsDollars := some 10 }

/-- Erase the Period label of a bucket row (for comparing bucket
content up to the label). -/
def erasePeriod (a : AggRow) : AggRow := { a with period := PeriodLabel.int 0 }

/-- The metric sums of one group, with no key information: what an
aggregate row looks like once its Period label is erased. -/
def groupMetricsRow (grp : List Row) : AggRow :=
  { runYearCol := none, weekCol := none, period := PeriodLabel.int 0
    totalExecutions := sumInt Row.totalExecutions grp
    manualHoursSaved := sumOpt Row.manualHoursSaved grp
    costSavingsDollars := sumOpt Row.costSavingsDollars grp
    successfulExecutions := sumInt Row.successfulExecutions grp
    exceptionExecutions := sumInt Row.exceptionExecutions grp }

/-- Counterexample to C9: on the table [rowA, rowD] — both rows of
January 2023 by (Run_Year, Run_Month), but with Month strings "Jan" and
"Feb" — the Daily aggregation has one bucket while the Monthly
aggregation has two, so the two granularities do not contain the same
buckets. -/
theorem daily_monthly_partition_differs :
    (aggregate_data [rowA, rowD] "Daily").length = 1
    ∧ (aggregate_data [rowA, rowD] "Monthly").length = 2 := by
  refine ⟨rfl, ?_⟩
  decide

/-- Two groupings whose keys induce the same partition of the table
produce the same list of group summaries. -/
theorem grouped_respects_partition {κ₁ κ₂ : Type} [DecidableEq κ₁] [DecidableEq κ₂]
    (f : Row → κ₁) (g : Row → κ₂) (big : List Row) (df : List Row)
    (hsub : ∀ r ∈ df, r ∈ big)
    (h : ∀ r ∈ big, ∀ r2 ∈ big, (f r = f r2 ↔ g r = g r2)) :
    ((df.map f).dedup).map (fun k => groupMetricsRow (big.filter (fun r => decide (f r = k))))
      = ((df.map g).dedup).map (fun k => groupMetricsRow (big.filter (fun r => decide (g r = k)))) := by
  induction df with
  | nil => rfl
  | cons r t ih =>
    have hrb : r ∈ big := hsub r (List.mem_cons_self r t)
    have hsubt : ∀ x ∈ t, x ∈ big := fun x hx => hsub x (List.mem_cons_of_mem r hx)
    by_cases hf : f r ∈ t.map f
    · have hg : g r ∈ t.map g := by
        obtain ⟨r2, hr2, hfr2⟩ := List.mem_map.mp hf
        exact List.mem_map.mpr ⟨r2, hr2, (h r2 (hsubt r2 hr2) r hrb).mp hfr2⟩
      simp only [List.map_cons, List.dedup_cons_of_mem hf, List.dedup_cons_of_mem hg]
      exact ih hsubt
    · have hg : g r ∉ t.map g := by
        intro hgm
        obtain ⟨r2, hr2, hgr2⟩ := List.mem_map.mp hgm
        exact hf (List.mem_map.mpr ⟨r2, hr2, (h r2 (hsubt r2 hr2) r hrb).mpr hgr2⟩)
      simp only [List.map_cons, List.dedup_cons_of_not_mem hf,
        List.dedup_cons_of_not_mem hg, List.map_cons]
      have hhead : big.filter (fun x => decide (f x = f r))
          = big.filter (fun x => decide (g x = g r)) := by
        apply List.filter_congr
        intro x hx
        exact decide_eq_decide.mpr (h x hx r hrb)
      rw [hhead]
      rw [ih hsubt]

/-- C9 amended: whenever the Month strings are consistent with the
numeric run months — equal Date values (Run_Year, Run_Month) pick out
exactly the row pairs with equal Year_Month labels — the Daily and the
Monthly aggregation contain the same buckets with identical sums for
all five metrics, as a permutation: once the Period labels are erased,
one bucket list is a rearrangement of the other, so they differ only in
the Period label and in the order pandas sorts the buckets (Daily
chronologically by Date, Monthly lexicographically by the Year_Month
string).  (On tables where a Month string disagrees with Run_Month the
partitions themselves can differ, as the counterexample shows.) -/
theorem daily_monthly_same_buckets (df : List Row)
    (h : ∀ r ∈ df, ∀ r2 ∈ df, (dailyLabel r = dailyLabel r2 ↔ monthlyLabel r = monthlyLabel r2)) :
    ((aggregate_data df "Daily").map erasePeriod).Perm
      ((aggregate_data df "Monthly").map erasePeriod) := by
  have hform : ∀ (key : Row → PeriodLabel),
      (aggByLabel key df).map erasePeriod
        = ((df.map key).dedup).map
            (fun k => groupMetricsRow (df.filter (fun r => decide (key r = k)))) := by
    intro key
    rw [aggByLabel, List.map_map]
    rfl
  have hd : aggregate_data df "Daily" = aggByLabel dailyLabel df := rfl
  have hm : aggregate_data df "Monthly" = aggByLabel monthlyLabel df := rfl
  rw [hd, hm, hform, hform,
    grouped_respects_partition dailyLabel monthlyLabel df df (fun r hr => hr) h]

/-- Witness for the amended C9: the sample table has consistent Month
strings, and its Daily and Monthly aggregations hold the same buckets
(up to order) once the Period labels are erased. -/
theorem daily_monthly_same_buckets_witness :
    (∀ r ∈ dfEx, ∀ r2 ∈ dfEx,
      (dailyLabel r = dailyLabel r2 ↔ monthlyLabel r = monthlyLabel r2))
    ∧ ((aggregate_data dfEx "Daily").map erasePeriod).Perm
        ((aggregate_data dfEx "Monthly").map erasePeriod) :=
  ⟨by decide, daily_monthly_same_buckets dfEx (by decide)⟩
